import Mathlib

/-!
Shallow embedding of the uchimizu crate (src/src/lib.rs): a single-slot
memoizing cache (`Bucket`) driven by a cost-budget freshness rule (`Policy`).

Modelling conventions:
- Rust `u32` values are `Nat` with explicit reduction modulo `2^32 = 4294967296`
  wherever the source performs `u32` arithmetic that can overflow.  Release-mode
  Rust wraps on `u32` overflow, so `*`, `+` and `+= 1` are modelled as the exact
  operation followed by `% 4294967296`.
- Timestamps (`Instant`) are modelled abstractly in whole seconds as `Nat`;
  `now() - self.initiate` on the monotonic `std::time::Instant` is total and
  never negative (the subtraction saturates), matching `Nat` subtraction.
- The source reads the clock once for the staleness check and once inside
  `refresh`; a single `call` is modelled with one instant `now`, which is
  indistinguishable for the properties considered here.
- The `async` task is modelled by its produced value: `call` takes the value the
  task would return on this invocation, and reports in `taskCalls` how many
  times the task was invoked (the source either skips the task or awaits it
  exactly once, so `taskCalls` is the count of syntactic task invocations).
- The fallible `u32` conversion in the wall-clock (serde feature) variant of
  `duration_secs` is modelled as `Option Nat`: `none` models the panicking
  `.try_into().unwrap()` on an out-of-range `i64` second count.
-/

namespace Uchimizu

/-- The `u32` modulus: Rust `u32` arithmetic wraps modulo this value. -/
def u32Mod : Nat := 4294967296

/-- `struct Policy \x7b initial_amount: u32, pour_cost: u32, evaporation_cost: u32 \x7d`. -/
structure Policy where
  initial_amount : Nat
  pour_cost : Nat
  evaporation_cost : Nat
deriving DecidableEq

/-- `Policy::new(initial_amount, pour_cost, evaporation_cost)`. -/
def Policy.new (initial_amount pour_cost evaporation_cost : Nat) : Policy :=
  { initial_amount := initial_amount
    pour_cost := pour_cost
    evaporation_cost := evaporation_cost }

/-- `Policy::bottom_less()`: budget 1, both costs 0. -/
def Policy.bottom_less : Policy :=
  { initial_amount := 1, pour_cost := 0, evaporation_cost := 0 }

/-- `Policy::pierced()`: budget 0, both costs 1. -/
def Policy.pierced : Policy :=
  { initial_amount := 0, pour_cost := 1, evaporation_cost := 1 }

/-- `Policy::expire_within_counts(count)`: budget `count`, access cost 1, decay cost 0. -/
def Policy.expire_within_counts (count : Nat) : Policy :=
  { initial_amount := count, pour_cost := 1, evaporation_cost := 0 }

/-- `Policy::expire_within_secs(secs)`: budget `secs`, access cost 0, decay cost 1. -/
def Policy.expire_within_secs (secs : Nat) : Policy :=
  { initial_amount := secs, pour_cost := 0, evaporation_cost := 1 }

/-- `Policy::is_remaining(hit_count, duration_secs)`:
`pour_cost * hit_count + evaporation_cost * duration_secs < initial_amount`,
with each `u32` multiplication and the `u32` addition wrapping modulo `2^32`
as in release-mode Rust. -/
def Policy.is_remaining (p : Policy) (hit_count duration_secs : Nat) : Bool :=
  let pour_amount := p.pour_cost * hit_count % u32Mod
  let evaporation_amount := p.evaporation_cost * duration_secs % u32Mod
  decide ((pour_amount + evaporation_amount) % u32Mod < p.initial_amount)

/-- The staleness rule as the spec words it (section 7): each product, and the
sum, saturate at the maximum representable `u32` value instead of wrapping.
This definition follows the SPEC, not the source; it exists only to be compared
against `Policy.is_remaining` above. -/
def Policy.is_remaining_saturating (p : Policy) (hit_count duration_secs : Nat) : Bool :=
  let pour_amount := min (p.pour_cost * hit_count) (u32Mod - 1)
  let evaporation_amount := min (p.evaporation_cost * duration_secs) (u32Mod - 1)
  decide (min (pour_amount + evaporation_amount) (u32Mod - 1) < p.initial_amount)

/-- The wall-clock (serde feature) variant of `duration_secs`:
`d.num_seconds().try_into().unwrap()` converts an `i64` whole-second count to
`u32`.  `some` is the successful conversion; `none` models the `unwrap` panic,
which happens exactly when the count is negative or exceeds `u32::MAX`. -/
def duration_secs_wall (num_seconds : Int) : Option Nat :=
  if 0 ≤ num_seconds ∧ num_seconds ≤ 4294967295 then some num_seconds.toNat
  else none

/-- `struct Bucket<T> \x7b cache: Option<T>, policy: Policy, hit_count: u32, initiate: Instant \x7d`. -/
structure Bucket (T : Type) where
  cache : Option T
  policy : Policy
  hit_count : Nat
  initiate : Nat
deriving DecidableEq

/-- `Policy::into_bucket()`: empty cache, zero counter, epoch `now`. -/
def Policy.into_bucket {T : Type} (p : Policy) (now : Nat) : Bucket T :=
  { cache := none, policy := p, hit_count := 0, initiate := now }

/-- `Bucket::refresh()`: zero the counter, clear the cache, reset the epoch. -/
def Bucket.refresh {T : Type} (b : Bucket T) (now : Nat) : Bucket T :=
  { b with hit_count := 0, cache := none, initiate := now }

/-- Everything `Bucket::call` produces: the returned value, the bucket state
after the call, and how many times the task was invoked during the call. -/
structure CallResult (T : Type) where
  ret : T
  bucket : Bucket T
  taskCalls : Nat
deriving DecidableEq

/-- `Bucket::call(task)`.  `taskVal` is the value the task would produce if
invoked during this call.  The source matches on
`(is_remaining(hit_count, elapsed_secs), cache.clone())`: on `(true, Some(c))`
it reuses `c`, otherwise it refreshes, awaits the task once, and stores the
result; after the match it runs `hit_count += 1` (a wrapping `u32` increment),
written here at the end of each branch. -/
def Bucket.call {T : Type} (b : Bucket T) (now : Nat) (taskVal : T) : CallResult T :=
  match b.policy.is_remaining b.hit_count (now - b.initiate), b.cache with
  | true, some c =>
      { ret := c
        bucket := { b with hit_count := (b.hit_count + 1) % u32Mod }
        taskCalls := 0 }
  | _, _ =>
      let b1 := b.refresh now
      let b2 := { b1 with cache := some taskVal }
      { ret := taskVal
        bucket := { b2 with hit_count := (b2.hit_count + 1) % u32Mod }
        taskCalls := 1 }

/-- Run `Bucket.call` once per element of `vals`, all at the same instant
`now`; return the list of (returned value, task invocations) per call and the
final bucket. -/
def callsFrom {T : Type} (b : Bucket T) (now : Nat) : List T → List (T × Nat) × Bucket T
  | [] => ([], b)
  | v :: vs =>
      let r := b.call now v
      let rest := callsFrom r.bucket now vs
      ((r.ret, r.taskCalls) :: rest.1, rest.2)

/-- Concrete bucket used by the claim C4 witness. -/
def sampleHitBucket : Bucket Nat :=
  { cache := some 5, policy := Policy.bottom_less, hit_count := 3, initiate := 0 }

/-- Concrete bucket at counter `u32::MAX` used by the claim C4 counterexample. -/
def maxedBucketA : Bucket Nat :=
  { cache := some 5, policy := Policy.bottom_less, hit_count := 4294967295, initiate := 0 }

/-- Concrete bucket at counter `u32::MAX` used by the claim C10 counterexample. -/
def maxedBucketB : Bucket Nat :=
  { cache := some 7, policy := Policy.bottom_less, hit_count := 4294967295, initiate := 4 }

/-- Concrete bucket used by the claim C10 witness. -/
def emptyPiercedBucket : Bucket Nat :=
  { cache := none, policy := Policy.pierced, hit_count := 0, initiate := 0 }

/-- Claim C1 (counterexample): with budget 1, access cost 2 and decay cost 0,
at hit count `2^31` and duration 0 the wrapped spent amount is 0, so the code
reports the value as remaining even though the mathematical spent amount is not
below the budget: the stated equivalence fails at this input. -/
theorem c1_strict_budget_counterexample :
    (Policy.new 1 2 0).is_remaining 2147483648 0 = true ∧
    ¬ (2 * 2147483648 + 0 * 0 < 1) := by
  decide

/-- Claim C1 (amended): whenever the spent amount
`access_cost * hit_count + decay_cost * duration` fits in `u32` (no overflow),
`is_remaining` returns true iff that amount is strictly below the budget, so a
spent amount exactly equal to the budget reads as expired. -/
theorem c1_is_remaining_iff_spent_lt_budget (p : Policy) (h d : Nat)
    (hov : p.pour_cost * h + p.evaporation_cost * d < 4294967296) :
    p.is_remaining h d = true ↔
      p.pour_cost * h + p.evaporation_cost * d < p.initial_amount := by
  have h1 : p.pour_cost * h < 4294967296 := by omega
  have h2 : p.evaporation_cost * d < 4294967296 := by omega
  simp [Policy.is_remaining, u32Mod, Nat.mod_eq_of_lt h1, Nat.mod_eq_of_lt h2,
    Nat.mod_eq_of_lt hov]

/-- Witness for claim C1: the no-overflow equivalence at budget 100, access
cost 10, decay cost 0, hit count 3, duration 2. -/
theorem c1_is_remaining_iff_spent_lt_budget_witness :
    (Policy.new 100 10 0).pour_cost * 3 + (Policy.new 100 10 0).evaporation_cost * 2 <
      4294967296 ∧
    ((Policy.new 100 10 0).is_remaining 3 2 = true ↔
      (Policy.new 100 10 0).pour_cost * 3 + (Policy.new 100 10 0).evaporation_cost * 2 <
        (Policy.new 100 10 0).initial_amount) :=
  ⟨by decide, c1_is_remaining_iff_spent_lt_budget (Policy.new 100 10 0) 3 2 (by decide)⟩

/-- Claim C2: the code does not saturate.  At budget 1, decay cost 2 and
duration `2^31`, the wrapping `u32` multiplication makes the spent amount 0 and
`is_remaining` reports the value as still fresh, while the saturating
arithmetic the claim describes reports it expired. -/
theorem c2_overflow_wraps_not_saturates :
    (Policy.new 1 0 2).is_remaining 0 2147483648 = true ∧
    (Policy.new 1 0 2).is_remaining_saturating 0 2147483648 = false := by
  decide

/-- Claim C3: a single `Bucket::call` invokes the task at most once, for every
bucket state (hence every policy, zero-budget ones included). -/
theorem c3_task_invoked_at_most_once {T : Type} (b : Bucket T) (now : Nat) (v : T) :
    (b.call now v).taskCalls ≤ 1 := by
  obtain ⟨cache, policy, hit, init⟩ := b
  cases hrem : policy.is_remaining hit (now - init) <;> cases cache <;>
    simp [Bucket.call, Bucket.refresh, hrem]

/-- Claim C4 (counterexample): a cache-hit call on a bucket whose counter is at
`u32::MAX` wraps the counter to 0 instead of incrementing it by one, even
though the cache holds a value and the policy reports remaining. -/
theorem c4_cache_hit_counterexample :
    maxedBucketA.policy.is_remaining maxedBucketA.hit_count (0 - maxedBucketA.initiate) =
      true ∧
    maxedBucketA.cache = some 5 ∧
    (maxedBucketA.call 0 9).bucket.hit_count = 0 := by
  decide

/-- Claim C4 (amended): on a cache hit (value present, policy reports
remaining) with the counter below `u32::MAX`, `call` returns the cached value,
does not invoke the task, increments the counter by exactly one, and leaves the
cached value, the policy and the epoch unchanged.  (At `u32::MAX` the wrapping
`u32` increment resets the counter to 0 instead.) -/
theorem c4_cache_hit_frame {T : Type} (b : Bucket T) (now : Nat) (v c : T)
    (hc : b.cache = some c)
    (hrem : b.policy.is_remaining b.hit_count (now - b.initiate) = true)
    (hmax : b.hit_count < 4294967295) :
    (b.call now v).ret = c ∧
    (b.call now v).taskCalls = 0 ∧
    (b.call now v).bucket.cache = b.cache ∧
    (b.call now v).bucket.policy = b.policy ∧
    (b.call now v).bucket.initiate = b.initiate ∧
    (b.call now v).bucket.hit_count = b.hit_count + 1 := by
  obtain ⟨cache, policy, hit, init⟩ := b
  simp only at hc hrem hmax
  subst hc
  simp [Bucket.call, hrem, u32Mod, Nat.mod_eq_of_lt (by omega : hit + 1 < 4294967296)]

/-- Witness for claim C4: the cache-hit frame conditions at a concrete bucket
with cached value 5, bottomless policy, counter 3. -/
theorem c4_cache_hit_frame_witness :
    sampleHitBucket.cache = some 5 ∧
    sampleHitBucket.policy.is_remaining sampleHitBucket.hit_count
      (2 - sampleHitBucket.initiate) = true ∧
    sampleHitBucket.hit_count < 4294967295 ∧
    ((sampleHitBucket.call 2 9).ret = 5 ∧
     (sampleHitBucket.call 2 9).taskCalls = 0 ∧
     (sampleHitBucket.call 2 9).bucket.cache = sampleHitBucket.cache ∧
     (sampleHitBucket.call 2 9).bucket.policy = sampleHitBucket.policy ∧
     (sampleHitBucket.call 2 9).bucket.initiate = sampleHitBucket.initiate ∧
     (sampleHitBucket.call 2 9).bucket.hit_count = sampleHitBucket.hit_count + 1) :=
  ⟨by decide, by decide, by decide,
    c4_cache_hit_frame sampleHitBucket 2 9 5 (by decide) (by decide) (by decide)⟩

/-- Claim C5: `refresh` empties the cache, zeroes the counter, sets the epoch
to the given instant and keeps the policy; the next `call` after a `refresh`
invokes the task exactly once and returns its value, regardless of the prior
bucket state and of the policy. -/
theorem c5_refresh_resets_and_next_call_recomputes {T : Type} (b : Bucket T)
    (now now2 : Nat) (v : T) :
    (b.refresh now).cache = none ∧
    (b.refresh now).hit_count = 0 ∧
    (b.refresh now).initiate = now ∧
    (b.refresh now).policy = b.policy ∧
    ((b.refresh now).call now2 v).taskCalls = 1 ∧
    ((b.refresh now).call now2 v).ret = v := by
  obtain ⟨cache, policy, hit, init⟩ := b
  refine ⟨rfl, rfl, rfl, rfl, ?_, ?_⟩ <;>
    cases hrem : policy.is_remaining 0 (now2 - now) <;>
      simp [Bucket.call, Bucket.refresh, hrem]

/-- Claim C6: the bottomless preset always reports remaining and the pierced
preset never does, for all hit counts and durations. -/
theorem c6_bottom_less_always_pierced_never (h d : Nat) :
    Policy.bottom_less.is_remaining h d = true ∧
    Policy.pierced.is_remaining h d = false := by
  simp [Policy.is_remaining, Policy.bottom_less, Policy.pierced, u32Mod]

/-- Claim C7: for `u32` inputs, `expire_within_counts n` reports remaining iff
the hit count is below `n` (independent of the duration), and
`expire_within_secs s` reports remaining iff the duration is below `s`
(independent of the hit count). -/
theorem c7_expire_within_presets (n s h d : Nat)
    (hh : h < 4294967296) (hd : d < 4294967296) :
    ((Policy.expire_within_counts n).is_remaining h d = true ↔ h < n) ∧
    ((Policy.expire_within_secs s).is_remaining h d = true ↔ d < s) := by
  constructor
  · simp [Policy.is_remaining, Policy.expire_within_counts, u32Mod, Nat.mod_eq_of_lt hh]
  · simp [Policy.is_remaining, Policy.expire_within_secs, u32Mod, Nat.mod_eq_of_lt hd]

/-- Witness for claim C7: the preset equivalences at n = s = 5, hit count 3,
duration 7. -/
theorem c7_expire_within_presets_witness :
    3 < 4294967296 ∧ 7 < 4294967296 ∧
    (((Policy.expire_within_counts 5).is_remaining 3 7 = true ↔ 3 < 5) ∧
     ((Policy.expire_within_secs 5).is_remaining 3 7 = true ↔ 7 < 5)) :=
  ⟨by decide, by decide, c7_expire_within_presets 5 5 3 7 (by decide) (by decide)⟩

/-- Claim C8 (counterexample): with budget 100, access cost 10, decay cost 0
and zero elapsed time, the 10th call is still a cache hit (it checks hit count
9, and 90 < 100): it invokes the task 0 times and returns the first cached
value, so the 10th call does not trigger a refresh as the claim states. -/
theorem c8_tenth_call_counterexample :
    (callsFrom ((Policy.new 100 10 0).into_bucket 0 : Bucket Nat) 0
        [1, 2, 3, 4, 5, 6, 7, 8, 9, 10]).1 =
      [(1, 1), (1, 0), (1, 0), (1, 0), (1, 0), (1, 0), (1, 0), (1, 0), (1, 0), (1, 0)] := by
  decide

/-- Claim C8 (amended): with budget 100, access cost 10, decay cost 0 and zero
elapsed time, the first call invokes the task once, calls 2 through 10 are
cache hits returning the identical first value with no task invocation, and
the 11th call (checking hit count 10, where 100 is not below 100) triggers the
refresh and invokes the task a second time. -/
theorem c8_trace_eleven_calls :
    (callsFrom ((Policy.new 100 10 0).into_bucket 0 : Bucket Nat) 0
        [1, 2, 3, 4, 5, 6, 7, 8, 9, 10, 11]).1 =
      [(1, 1), (1, 0), (1, 0), (1, 0), (1, 0), (1, 0), (1, 0), (1, 0), (1, 0), (1, 0),
        (11, 1)] := by
  decide

/-- Claim C9: in the wall-clock variant, a negative delta of one second makes
the `u32` conversion in `duration_secs` fail (the unwrap panics, modelled as
`none`); it is not clamped to zero as the claim states. -/
theorem c9_negative_delta_panics_not_clamped :
    duration_secs_wall (-1) = none ∧ duration_secs_wall (-1) ≠ some 0 := by
  decide

/-- Claim C10 (counterexample): a cache-hit call at counter `u32::MAX` wraps
the counter to 0, so after that completed call the access counter is not at
least 1. -/
theorem c10_counter_wraps_counterexample :
    (maxedBucketB.call 4 1).bucket.hit_count = 0 := by
  decide

/-- Claim C10 (amended): after every completed `call`, on either path, the
cache holds exactly the returned value (so `call` never returns leaving the
cache empty), and whenever the pre-call counter is below `u32::MAX` the
post-call counter is at least 1 (at `u32::MAX` the wrapping increment on the
cache-hit path resets the counter to 0). -/
theorem c10_call_populates_cache {T : Type} (b : Bucket T) (now : Nat) (v : T) :
    (b.call now v).bucket.cache = some (b.call now v).ret ∧
    (b.hit_count < 4294967295 → 1 ≤ (b.call now v).bucket.hit_count) := by
  obtain ⟨cache, policy, hit, init⟩ := b
  cases hrem : policy.is_remaining hit (now - init) <;> cases cache <;>
    simp [Bucket.call, Bucket.refresh, hrem, u32Mod]
  all_goals omega

/-- Witness for claim C10: the post-call invariant at a fresh pierced bucket. -/
theorem c10_call_populates_cache_witness :
    emptyPiercedBucket.hit_count < 4294967295 ∧
    ((emptyPiercedBucket.call 0 42).bucket.cache = some (emptyPiercedBucket.call 0 42).ret ∧
     1 ≤ (emptyPiercedBucket.call 0 42).bucket.hit_count) :=
  ⟨by decide,
    (c10_call_populates_cache emptyPiercedBucket 0 42).1,
    (c10_call_populates_cache emptyPiercedBucket 0 42).2 (by decide)⟩

end Uchimizu
